import Mathlib

/-!
Shallow embedding of the URL security/privacy analyzer of `src/server.py`
(function `analyze_url`, lines 188-283), together with the pieces of the
Python standard library it relies on: `str.startswith`, the scheme part of
`urllib.parse.urlparse`, and dictionary lookup (`dict.get`).

The single network call (`aiohttp` HEAD request, lines 200-218) is replaced
by an explicit `FetchOutcome` parameter: either the response's header
multimap (association list, looked up case-insensitively as aiohttp's
`CIMultiDict.get` does) or a transport failure caught by the `except` block.
Everything after that point is a pure function of the input URL string and
this outcome, translated line by line.  The `ValueError` that `urlparse`
(line 193, outside the `try` block) raises on an unbalanced square bracket
in the authority aborts the endpoint before the probe; this error path is
modelled by `analyze_url_endpoint`.
-/

/-- Characters allowed in a URL scheme by `urllib.parse`
(`scheme_chars = ascii letters + digits + "+-."`). -/
def schemeChars (c : Char) : Bool :=
  c.isAlpha || c.isDigit || c = '+' || c = '-' || c = '.'

/-- Split a character list at the first colon: returns the characters before
the first `':'` and the characters after it, or `none` when the list has no
colon.  This is `url.find(':')` in `urllib.parse.urlsplit`. -/
def splitAtColon : List Char → Option (List Char × List Char)
  | [] => none
  | c :: cs =>
    if c = ':' then some ([], cs)
    else
      match splitAtColon cs with
      | some (pre, rest) => some (c :: pre, rest)
      | none => none

/-- The `scheme` component of `urllib.parse.urlparse(url)`: the (lowercased)
part before the first `':'`, provided it is nonempty, starts with an ASCII
letter and consists of scheme characters only; otherwise the empty string.
(Lean's `Char.isAlpha` is ASCII-only, matching Python's
`url[0].isascii() and url[0].isalpha()` guard.) -/
def parseScheme (url : String) : String :=
  match splitAtColon url.data with
  | some (c :: pre, _) =>
    if c.isAlpha && (c :: pre).all schemeChars then
      String.mk ((c :: pre).map Char.toLower)
    else ""
  | _ => ""

/-- Python's `p.startswith(s)` for plain strings (case sensitive). -/
def strStartsWith (p s : String) : Bool :=
  p.data.isPrefixOf s.data

/-- The six header names checked by `analyze_url`, in the order of the
`security_header_checks` dict literal (lines 206-213). -/
def headerNames : List String :=
  ["Strict-Transport-Security", "Content-Security-Policy", "X-Frame-Options",
   "X-Content-Type-Options", "Referrer-Policy", "Permissions-Policy"]

/-- ASCII lowercasing of a string, character by character (the case folding
relevant to HTTP header names). -/
def lowerStr (s : String) : String :=
  String.mk (s.data.map Char.toLower)

/-- Case-insensitive header lookup, as `response.headers.get(name)` on
aiohttp's `CIMultiDict` (first matching entry, or `None`). -/
def ciGet (headers : List (String × String)) (k : String) : Option String :=
  (headers.find? (fun p => lowerStr p.1 == lowerStr k)).map Prod.snd

/-- Outcome of the HEAD request at lines 200-218: either the response
headers, or any transport-level exception caught by the `except` block. -/
inductive FetchOutcome where
  | success (headers : List (String × String))
  | failure
deriving DecidableEq

/-- The `security_headers` dict after the `try`/`except` block (lines
200-218): on success each of the six names maps to its header value when
that value is truthy (non-`None`, non-empty), else to `"Missing"`
(`{k: v if v else 'Missing' ...}`, line 215); on failure the dict is
`{"error": "Could not fetch headers"}` (line 218).  Python dicts preserve
insertion order, so an association list is a faithful model. -/
def buildSecurityHeaders : FetchOutcome → List (String × String)
  | .success headers =>
    headerNames.map (fun k =>
      (k, match ciGet headers k with
          | some v => if v = "" then "Missing" else v
          | none => "Missing"))
  | .failure => [("error", "Could not fetch headers")]

/-- Python `d.get(k)` on a dict represented as an insertion-ordered
association list (keys are unique in the dicts `analyze_url` builds). -/
def dictGet (d : List (String × String)) (k : String) : Option String :=
  (d.find? (fun p => p.1 == k)).map Prod.snd

/-- The `SecurityAnalysis` response model (lines 76-84).  `timestamp` is
informational only (a creation time) and carries no logic, so it is not
modelled; `ssl_info` is kept because the code always sets it to `None`. -/
structure SecurityAnalysis where
  url : String
  https : Bool
  security_headers : List (String × String)
  ssl_info : Option (List (String × String))
  privacy_score : Int
  security_score : Int
  recommendations : List String
deriving DecidableEq, Repr

/-- Running state of the score computation: the Python variables
`security_score`, `privacy_score` and `recommendations` of lines 221-260. -/
structure ScoreState where
  security_score : Int
  privacy_score : Int
  recommendations : List String
deriving DecidableEq, Repr

/-- One check of the rule table at lines 224-260.  Each of the seven blocks
has the same shape: `if <pass>: security_score += ds; privacy_score += dp
else: recommendations.append(msg)`, where a score the block does not touch
has delta 0. -/
def applyCheck (pass : Bool) (ds dp : Int) (msg : String) (st : ScoreState) : ScoreState :=
  if pass then
    { st with security_score := st.security_score + ds
              privacy_score := st.privacy_score + dp }
  else
    { st with recommendations := st.recommendations ++ [msg] }

/-- The scoring block of `analyze_url` (lines 220-273): a pure function of
`is_https` and the `security_headers` dict.  Lines 224-228 are the HTTPS
check, lines 231-260 the six header checks (each guard is
`security_headers.get(name) != 'Missing'`), lines 263-264 the `min(·, 100)`
normalizations, lines 267-270 the positive-feedback insertion and lines
272-273 the defensive non-empty guard. -/
def computeScores (is_https : Bool) (security_headers : List (String × String)) : ScoreState :=
  let st0 : ScoreState := ⟨0, 0, []⟩
  let st1 := applyCheck is_https 30 20
    "Site does not use HTTPS - traffic is not encrypted" st0
  let st2 := applyCheck (dictGet security_headers "Strict-Transport-Security" != some "Missing")
    15 0 "Missing HSTS header - vulnerable to protocol downgrade attacks" st1
  let st3 := applyCheck (dictGet security_headers "Content-Security-Policy" != some "Missing")
    15 15 "Missing CSP header - vulnerable to XSS attacks" st2
  let st4 := applyCheck (dictGet security_headers "X-Frame-Options" != some "Missing")
    10 0 "Missing X-Frame-Options - vulnerable to clickjacking" st3
  let st5 := applyCheck (dictGet security_headers "X-Content-Type-Options" != some "Missing")
    10 0 "Missing X-Content-Type-Options header" st4
  let st6 := applyCheck (dictGet security_headers "Referrer-Policy" != some "Missing")
    0 15 "Missing Referrer-Policy - may leak information" st5
  let st7 := applyCheck (dictGet security_headers "Permissions-Policy" != some "Missing")
    0 20 "Missing Permissions-Policy header" st6
  let security_score := min st7.security_score 100
  let privacy_score := min st7.privacy_score 100
  let recommendations :=
    if security_score ≥ 80 then "Excellent security configuration!" :: st7.recommendations
    else if security_score ≥ 60 then "Good security, but room for improvement" :: st7.recommendations
    else st7.recommendations
  let recommendations2 :=
    if recommendations = [] then ["All security checks passed!"] else recommendations
  ⟨security_score, privacy_score, recommendations2⟩

/-- Model of the body of `analyze_url` (lines 188-283) on the inputs where
the `urlparse` call of line 193 does not raise, with the network call
abstracted into the `fetch : FetchOutcome` argument.  Sequential Python
assignments become `let`s; `recommendations.append x` is `++ [x]` and
`recommendations.insert(0, x)` is `x :: ·`.  The error path of line 193 is
modelled by `analyze_url_endpoint` below. -/
def analyze_url (input : String) (fetch : FetchOutcome) : SecurityAnalysis :=
  let url := if strStartsWith "http://" input || strStartsWith "https://" input
             then input else "https://" ++ input
  let is_https := parseScheme url == "https"
  let security_headers := buildSecurityHeaders fetch
  let st := computeScores is_https security_headers
  { url := url
    https := is_https
    security_headers := security_headers
    ssl_info := none
    privacy_score := st.privacy_score
    security_score := st.security_score
    recommendations := st.recommendations }

/-- The value held by the Python variable `security_score` just before the
`min(security_score, 100)` normalization at line 263, as a function of the
`is_https` flag and the `security_headers` dict. -/
def security_score_raw (is_https : Bool) (security_headers : List (String × String)) : Int :=
  (if is_https then 30 else 0)
  + (if dictGet security_headers "Strict-Transport-Security" != some "Missing" then 15 else 0)
  + (if dictGet security_headers "Content-Security-Policy" != some "Missing" then 15 else 0)
  + (if dictGet security_headers "X-Frame-Options" != some "Missing" then 10 else 0)
  + (if dictGet security_headers "X-Content-Type-Options" != some "Missing" then 10 else 0)

/-- The value held by the Python variable `privacy_score` just before the
`min(privacy_score, 100)` normalization at line 264. -/
def privacy_score_raw (is_https : Bool) (security_headers : List (String × String)) : Int :=
  (if is_https then 20 else 0)
  + (if dictGet security_headers "Content-Security-Policy" != some "Missing" then 15 else 0)
  + (if dictGet security_headers "Referrer-Policy" != some "Missing" then 15 else 0)
  + (if dictGet security_headers "Permissions-Policy" != some "Missing" then 20 else 0)

/-! ### Helper lemmas -/

lemma applyCheck_security_score (p : Bool) (ds dp : Int) (msg : String) (st : ScoreState) :
    (applyCheck p ds dp msg st).security_score
      = st.security_score + (if p then ds else 0) := by
  cases p <;> simp [applyCheck]

lemma applyCheck_privacy_score (p : Bool) (ds dp : Int) (msg : String) (st : ScoreState) :
    (applyCheck p ds dp msg st).privacy_score
      = st.privacy_score + (if p then dp else 0) := by
  cases p <;> simp [applyCheck]

lemma applyCheck_recommendations (p : Bool) (ds dp : Int) (msg : String) (st : ScoreState) :
    (applyCheck p ds dp msg st).recommendations
      = if p then st.recommendations else st.recommendations ++ [msg] := by
  cases p <;> simp [applyCheck]

lemma emptyGuard_ne_nil (l : List String) :
    (if l = [] then ["All security checks passed!"] else l) ≠ [] := by
  split
  · simp
  · assumption

lemma computeScores_recommendations_ne_nil (b : Bool) (sh : List (String × String)) :
    (computeScores b sh).recommendations ≠ [] := by
  simp only [computeScores]
  exact emptyGuard_ne_nil _

lemma analyze_url_recommendations_ne_nil (input : String) (fetch : FetchOutcome) :
    (analyze_url input fetch).recommendations ≠ [] := by
  simp only [analyze_url]
  exact computeScores_recommendations_ne_nil _ _

lemma computeScores_score_eq_raw (b : Bool) (sh : List (String × String)) :
    (computeScores b sh).security_score = security_score_raw b sh
    ∧ (computeScores b sh).privacy_score = privacy_score_raw b sh := by
  simp only [computeScores, security_score_raw, privacy_score_raw,
    applyCheck_security_score, applyCheck_privacy_score]
  constructor <;> split_ifs <;> norm_num

lemma analyze_url_score_eq_raw (input : String) (fetch : FetchOutcome) :
    (analyze_url input fetch).security_score
      = security_score_raw (analyze_url input fetch).https
          (analyze_url input fetch).security_headers
    ∧ (analyze_url input fetch).privacy_score
      = privacy_score_raw (analyze_url input fetch).https
          (analyze_url input fetch).security_headers := by
  simp only [analyze_url]
  exact computeScores_score_eq_raw _ _

lemma computeScores_all_missing (sh : List (String × String))
    (h1 : dictGet sh "Strict-Transport-Security" = some "Missing")
    (h2 : dictGet sh "Content-Security-Policy" = some "Missing")
    (h3 : dictGet sh "X-Frame-Options" = some "Missing")
    (h4 : dictGet sh "X-Content-Type-Options" = some "Missing")
    (h5 : dictGet sh "Referrer-Policy" = some "Missing")
    (h6 : dictGet sh "Permissions-Policy" = some "Missing") :
    computeScores false sh =
      ⟨0, 0,
       ["Site does not use HTTPS - traffic is not encrypted",
        "Missing HSTS header - vulnerable to protocol downgrade attacks",
        "Missing CSP header - vulnerable to XSS attacks",
        "Missing X-Frame-Options - vulnerable to clickjacking",
        "Missing X-Content-Type-Options header",
        "Missing Referrer-Policy - may leak information",
        "Missing Permissions-Policy header"]⟩ := by
  simp [computeScores, applyCheck, h1, h2, h3, h4, h5, h6, min_def]

lemma computeScores_none_missing (sh : List (String × String))
    (h1 : dictGet sh "Strict-Transport-Security" ≠ some "Missing")
    (h2 : dictGet sh "Content-Security-Policy" ≠ some "Missing")
    (h3 : dictGet sh "X-Frame-Options" ≠ some "Missing")
    (h4 : dictGet sh "X-Content-Type-Options" ≠ some "Missing")
    (h5 : dictGet sh "Referrer-Policy" ≠ some "Missing")
    (h6 : dictGet sh "Permissions-Policy" ≠ some "Missing") :
    computeScores true sh = ⟨80, 70, ["Excellent security configuration!"]⟩ := by
  simp [computeScores, applyCheck, bne_iff_ne, h1, h2, h3, h4, h5, h6, min_def]

lemma computeScores_banding (b : Bool) (sh : List (String × String)) :
    (80 ≤ (computeScores b sh).security_score →
      (computeScores b sh).recommendations.head? = some "Excellent security configuration!")
  ∧ (60 ≤ (computeScores b sh).security_score → (computeScores b sh).security_score < 80 →
      (computeScores b sh).recommendations.head? = some "Good security, but room for improvement")
  ∧ ((computeScores b sh).security_score < 60 →
      "Excellent security configuration!" ∉ (computeScores b sh).recommendations
      ∧ "Good security, but room for improvement" ∉ (computeScores b sh).recommendations) := by
  simp only [computeScores]
  generalize (dictGet sh "Strict-Transport-Security" != some "Missing") = c1
  generalize (dictGet sh "Content-Security-Policy" != some "Missing") = c2
  generalize (dictGet sh "X-Frame-Options" != some "Missing") = c3
  generalize (dictGet sh "X-Content-Type-Options" != some "Missing") = c4
  generalize (dictGet sh "Referrer-Policy" != some "Missing") = c5
  generalize (dictGet sh "Permissions-Policy" != some "Missing") = c6
  cases b <;> cases c1 <;> cases c2 <;> cases c3 <;> cases c4 <;> cases c5 <;> cases c6 <;>
    decide

lemma security_score_raw_bounds (b : Bool) (sh : List (String × String)) :
    0 ≤ security_score_raw b sh ∧ security_score_raw b sh ≤ 80 := by
  simp only [security_score_raw]
  split_ifs <;> norm_num

lemma privacy_score_raw_bounds (b : Bool) (sh : List (String × String)) :
    0 ≤ privacy_score_raw b sh ∧ privacy_score_raw b sh ≤ 70 := by
  simp only [privacy_score_raw]
  split_ifs <;> norm_num

/-! ### Claim theorems -/

/-- C1 — the claim does not hold of the code; this theorem records what the
code actually does at a failing input.  When the header fetch fails the
`security_headers` dict is `{"error": "Could not fetch headers"}`, so every
scoring lookup `security_headers.get(name)` returns `None`, and the guard
`!= 'Missing'` is then true: every header check passes instead of failing.
With an https input the result is securityScore 80, privacyScore 70 and the
single recommendation "Excellent security configuration!" — not the seven
failure messages and score at most 30 that the claim (and the spec)
require. -/
theorem fetch_failure_code_behavior :
    (analyze_url "https://unreachable.invalid" .failure).security_headers
        = [("error", "Could not fetch headers")]
    ∧ (analyze_url "https://unreachable.invalid" .failure).https = true
    ∧ (analyze_url "https://unreachable.invalid" .failure).security_score = 80
    ∧ (analyze_url "https://unreachable.invalid" .failure).privacy_score = 70
    ∧ (analyze_url "https://unreachable.invalid" .failure).recommendations
        = ["Excellent security configuration!"] := by
  decide

/-- C3 — when the header fetch raises, `security_headers` is exactly the
one-entry error map, and a complete result is still produced: `analyze_url`
is total, `ssl_info` is `none` as always, and the recommendation list of the
returned result is (as for every result) non-empty. -/
theorem fetch_failure_error_map (input : String) :
    (analyze_url input .failure).security_headers
        = [("error", "Could not fetch headers")]
    ∧ (analyze_url input .failure).ssl_info = none
    ∧ (analyze_url input .failure).recommendations ≠ [] := by
  refine ⟨?_, ?_, analyze_url_recommendations_ne_nil input .failure⟩ <;>
    simp [analyze_url, buildSecurityHeaders]

/-- C4 — for every input string and every fetch outcome, both scores lie in
the closed interval [0, 100]. -/
theorem scores_within_range (input : String) (fetch : FetchOutcome) :
    0 ≤ (analyze_url input fetch).security_score
    ∧ (analyze_url input fetch).security_score ≤ 100
    ∧ 0 ≤ (analyze_url input fetch).privacy_score
    ∧ (analyze_url input fetch).privacy_score ≤ 100 := by
  obtain ⟨hs, hp⟩ := analyze_url_score_eq_raw input fetch
  obtain ⟨hs0, hs80⟩ := security_score_raw_bounds (analyze_url input fetch).https
    (analyze_url input fetch).security_headers
  obtain ⟨hp0, hp70⟩ := privacy_score_raw_bounds (analyze_url input fetch).https
    (analyze_url input fetch).security_headers
  omega

/-- C8 — the recommendations list of every result is non-empty: either some
check failed and appended its message, or all checks passed, the security
score reached 80 and the positive-feedback message was prepended; the
defensive `if not recommendations` guard makes this unconditional. -/
theorem recommendations_nonempty (input : String) (fetch : FetchOutcome) :
    (analyze_url input fetch).recommendations ≠ [] :=
  analyze_url_recommendations_ne_nil input fetch

/-- C10 — the pre-clamp running sums are at most 80 (security) and 70
(privacy), so the `min(·, 100)` normalization never changes either score:
each returned score equals its unclamped sum. -/
theorem clamp_never_fires (input : String) (fetch : FetchOutcome) :
    security_score_raw (analyze_url input fetch).https
        (analyze_url input fetch).security_headers ≤ 80
    ∧ privacy_score_raw (analyze_url input fetch).https
        (analyze_url input fetch).security_headers ≤ 70
    ∧ (analyze_url input fetch).security_score
        = security_score_raw (analyze_url input fetch).https
            (analyze_url input fetch).security_headers
    ∧ (analyze_url input fetch).privacy_score
        = privacy_score_raw (analyze_url input fetch).https
            (analyze_url input fetch).security_headers := by
  obtain ⟨hs, hp⟩ := analyze_url_score_eq_raw input fetch
  exact ⟨(security_score_raw_bounds _ _).2, (privacy_score_raw_bounds _ _).2, hs, hp⟩


/-- C6 — with `isHttps` false and all six headers mapped to `"Missing"`,
both scores are 0 and the recommendations are exactly the seven failure
messages in rule-table order, with no positive-feedback message. -/
theorem all_checks_fail_scores (input : String) (hs : List (String × String))
    (hhttps : (analyze_url input (.success hs)).https = false)
    (hmiss : ∀ k ∈ headerNames,
      dictGet (analyze_url input (.success hs)).security_headers k = some "Missing") :
    (analyze_url input (.success hs)).security_score = 0
    ∧ (analyze_url input (.success hs)).privacy_score = 0
    ∧ (analyze_url input (.success hs)).recommendations =
        ["Site does not use HTTPS - traffic is not encrypted",
         "Missing HSTS header - vulnerable to protocol downgrade attacks",
         "Missing CSP header - vulnerable to XSS attacks",
         "Missing X-Frame-Options - vulnerable to clickjacking",
         "Missing X-Content-Type-Options header",
         "Missing Referrer-Policy - may leak information",
         "Missing Permissions-Policy header"] := by
  have h1 := hmiss "Strict-Transport-Security" (by simp [headerNames])
  have h2 := hmiss "Content-Security-Policy" (by simp [headerNames])
  have h3 := hmiss "X-Frame-Options" (by simp [headerNames])
  have h4 := hmiss "X-Content-Type-Options" (by simp [headerNames])
  have h5 := hmiss "Referrer-Policy" (by simp [headerNames])
  have h6 := hmiss "Permissions-Policy" (by simp [headerNames])
  simp only [analyze_url] at hhttps h1 h2 h3 h4 h5 h6 ⊢
  rw [hhttps, computeScores_all_missing _ h1 h2 h3 h4 h5 h6]
  exact ⟨rfl, rfl, rfl⟩

/-- Witness for C6: an http URL whose response carries none of the six
headers. -/
theorem all_checks_fail_scores_witness :
    (analyze_url "http://example.com" (.success [])).security_score = 0
    ∧ (analyze_url "http://example.com" (.success [])).privacy_score = 0
    ∧ (analyze_url "http://example.com" (.success [])).recommendations =
        ["Site does not use HTTPS - traffic is not encrypted",
         "Missing HSTS header - vulnerable to protocol downgrade attacks",
         "Missing CSP header - vulnerable to XSS attacks",
         "Missing X-Frame-Options - vulnerable to clickjacking",
         "Missing X-Content-Type-Options header",
         "Missing Referrer-Policy - may leak information",
         "Missing Permissions-Policy header"] :=
  all_checks_fail_scores "http://example.com" [] (by decide) (by decide)

/-- A response carrying all six security headers with non-empty values. -/
def allSixHeaders : List (String × String) :=
  [("Strict-Transport-Security", "max-age=63072000"),
   ("Content-Security-Policy", "default-src https:"),
   ("X-Frame-Options", "DENY"),
   ("X-Content-Type-Options", "nosniff"),
   ("Referrer-Policy", "no-referrer"),
   ("Permissions-Policy", "geolocation=()")]

/-- C2 — counterexample to the claim as stated: with all six headers present
and `isHttps` true the security score is 80, not 100.  The five security
contributions sum to 30+15+15+10+10 = 80. -/
theorem full_marks_claim_counterexample :
    (analyze_url "https://example.com" (.success allSixHeaders)).https = true
  ∧ (∀ k ∈ headerNames,
      dictGet (analyze_url "https://example.com" (.success allSixHeaders)).security_headers k
        ≠ some "Missing")
  ∧ (analyze_url "https://example.com" (.success allSixHeaders)).security_score = 80
  ∧ (analyze_url "https://example.com" (.success allSixHeaders)).security_score ≠ 100 := by
  decide

/-- C2 (amended) — with a successful fetch, all six headers mapped to a
value other than `"Missing"` and `isHttps` true: securityScore = 80,
privacyScore = 70, recommendations exactly
`["Excellent security configuration!"]`. -/
theorem full_marks_scores (input : String) (hs : List (String × String))
    (hhttps : (analyze_url input (.success hs)).https = true)
    (hall : ∀ k ∈ headerNames,
      dictGet (analyze_url input (.success hs)).security_headers k ≠ some "Missing") :
    (analyze_url input (.success hs)).security_score = 80
    ∧ (analyze_url input (.success hs)).privacy_score = 70
    ∧ (analyze_url input (.success hs)).recommendations
        = ["Excellent security configuration!"] := by
  have h1 := hall "Strict-Transport-Security" (by simp [headerNames])
  have h2 := hall "Content-Security-Policy" (by simp [headerNames])
  have h3 := hall "X-Frame-Options" (by simp [headerNames])
  have h4 := hall "X-Content-Type-Options" (by simp [headerNames])
  have h5 := hall "Referrer-Policy" (by simp [headerNames])
  have h6 := hall "Permissions-Policy" (by simp [headerNames])
  simp only [analyze_url] at hhttps h1 h2 h3 h4 h5 h6 ⊢
  rw [hhttps, computeScores_none_missing _ h1 h2 h3 h4 h5 h6]
  exact ⟨rfl, rfl, rfl⟩

/-- Witness for the amended C2 at a concrete fully configured response. -/
theorem full_marks_scores_witness :
    (analyze_url "https://example.com" (.success allSixHeaders)).security_score = 80
    ∧ (analyze_url "https://example.com" (.success allSixHeaders)).privacy_score = 70
    ∧ (analyze_url "https://example.com" (.success allSixHeaders)).recommendations
        = ["Excellent security configuration!"] :=
  full_marks_scores "https://example.com" allSixHeaders (by decide) (by decide)

/-- C7 — the positive-feedback banding is exact: a security score of at
least 80 puts "Excellent security configuration!" first, a score in
[60, 80) puts "Good security, but room for improvement" first, and below 60
neither message appears anywhere in the list. -/
theorem positive_feedback_banding (input : String) (fetch : FetchOutcome) :
    (80 ≤ (analyze_url input fetch).security_score →
      (analyze_url input fetch).recommendations.head?
        = some "Excellent security configuration!")
  ∧ (60 ≤ (analyze_url input fetch).security_score →
      (analyze_url input fetch).security_score < 80 →
      (analyze_url input fetch).recommendations.head?
        = some "Good security, but room for improvement")
  ∧ ((analyze_url input fetch).security_score < 60 →
      "Excellent security configuration!" ∉ (analyze_url input fetch).recommendations
      ∧ "Good security, but room for improvement"
          ∉ (analyze_url input fetch).recommendations) := by
  simp only [analyze_url]
  exact computeScores_banding _ _

/-- A response carrying only HSTS and CSP: with https this scores exactly
30 + 15 + 15 = 60. -/
def hstsCspHeaders : List (String × String) :=
  [("Strict-Transport-Security", "max-age=31536000"),
   ("Content-Security-Policy", "default-src https:")]

/-- Witness for C7 at scores 80 (all checks pass), exactly 60 (https, HSTS
and CSP only) and 0 (http, nothing). -/
theorem positive_feedback_banding_witness :
    (analyze_url "https://example.com" (.success allSixHeaders)).recommendations.head?
        = some "Excellent security configuration!"
  ∧ (analyze_url "https://example.com" (.success hstsCspHeaders)).recommendations.head?
        = some "Good security, but room for improvement"
  ∧ ("Excellent security configuration!"
        ∉ (analyze_url "http://example.com" (.success [])).recommendations
      ∧ "Good security, but room for improvement"
          ∉ (analyze_url "http://example.com" (.success [])).recommendations) :=
  ⟨(positive_feedback_banding "https://example.com" (.success allSixHeaders)).1 (by decide),
   (positive_feedback_banding "https://example.com" (.success hstsCspHeaders)).2.1
     (by decide) (by decide),
   (positive_feedback_banding "http://example.com" (.success [])).2.2 (by decide)⟩

/-- C9 — on a successful fetch, a header whose value is the empty string is
recorded as `"Missing"` (exactly like an absent header), and a header with
a non-empty value is recorded with that value. -/
theorem blank_header_value_treated_missing (hs : List (String × String)) (k : String)
    (hk : k ∈ headerNames) :
    (ciGet hs k = some "" →
      dictGet (buildSecurityHeaders (.success hs)) k = some "Missing")
  ∧ (ciGet hs k = none →
      dictGet (buildSecurityHeaders (.success hs)) k = some "Missing")
  ∧ (∀ v, ciGet hs k = some v → v ≠ "" →
      dictGet (buildSecurityHeaders (.success hs)) k = some v) := by
  simp only [headerNames] at hk
  fin_cases hk <;>
    refine ⟨fun h => ?_, fun h => ?_, fun v hv hne => ?_⟩ <;>
      simp_all [buildSecurityHeaders, headerNames, dictGet]

/-- Witness for C9: a response sending `x-frame-options` with an empty
value (matched case-insensitively) is mapped to `"Missing"`. -/
theorem blank_header_value_treated_missing_witness :
    "X-Frame-Options" ∈ headerNames
  ∧ dictGet (buildSecurityHeaders (.success [("x-frame-options", "")])) "X-Frame-Options"
      = some "Missing" :=
  ⟨by decide,
   (blank_header_value_treated_missing [("x-frame-options", "")] "X-Frame-Options"
      (by decide)).1 (by decide)⟩
